import Mathlib

/-!
Verification of the `Reveal` scroll-reveal component of the portfolio page
(`src/pages/nishanth-portofolio.tsx`).

The component keeps a boolean `visible` state (initially `false`), and a
mount effect that:
  * reads the reduced-motion media query (`window.matchMedia?.(...)` — absent
    `matchMedia` makes the whole optional chain `undefined`, hence falsy);
  * on reduced motion, sets `visible := true` and returns (no observation);
  * returns early when the container ref is `null`;
  * otherwise constructs an `IntersectionObserver` with `threshold: 0.2`
    (the construction throws when the facility is absent — there is no
    try/catch around it) and observes the container;
  * the observer callback runs `entries.forEach`; for each entry with
    `isIntersecting` it schedules `setTimeout(() => setVisible(true), delay)`
    and calls `obs.disconnect()` — note `disconnect` does not stop the
    `forEach` over the already-delivered batch;
  * the effect cleanup disconnects the observer.

We embed this as an explicit state machine.  Time is a natural number of
milliseconds; scheduled timers are kept as a list of absolute fire times;
`advanceTo t` fires every timer due at or before `t` (each one only ever sets
the `visible` latch).  External events (callback deliveries from the
environment, unmount) are time-stamped and folded over the state.
-/

namespace Portfolio

/-- The `cn` utility of the source: drops falsy entries (`undefined`, `null`,
`false`, `""` — modelled as `none` or `some ""`) and joins the rest with a
single space. -/
def cn (classes : List (Option String)) : String :=
  String.intercalate " " ((classes.filterMap id).filter (fun s => s ≠ ""))

/-- The class string rendered by `Reveal`'s container `div`: the static
transition classes, the `visible`-dependent opacity/offset classes, and the
caller-supplied `className` (default `""`). -/
def revealClass (visible : Bool) (className : String) : String :=
  cn [some "transform transition-all duration-500 ease-out will-change-[opacity,transform]",
      some (if visible then "opacity-100 translate-y-0" else "opacity-0 translate-y-3"),
      some className]

/-- An `IntersectionObserverEntry` as the callback consumes it: the
`isIntersecting` flag and the reported intersection ratio (a percentage,
`0 ≤ - ≤ 100`). The source code reads only `isIntersecting`. -/
structure Entry where
  isIntersecting : Bool
  intersectionRatio : Nat
deriving DecidableEq, Repr

/-- The hosting environment as the mount effect observes it. -/
structure Env where
  /-- `window.matchMedia` is defined. -/
  matchMediaAvailable : Bool
  /-- the `(prefers-reduced-motion: reduce)` query matches. -/
  reducedMotionMatches : Bool
  /-- `ref.current` is non-null when the effect runs. -/
  elPresent : Bool
  /-- `IntersectionObserver` is constructible (construction does not throw). -/
  observerAvailable : Bool
deriving DecidableEq, Repr

/-- `window.matchMedia?.("(prefers-reduced-motion: reduce)").matches`:
`undefined` (falsy) when `matchMedia` is absent, else the query result. -/
def prefersReduced (env : Env) : Bool :=
  env.matchMediaAvailable && env.reducedMotionMatches

/-- Per-instance state of one `Reveal`:
the `visible` flag, whether the intersection observation is currently
registered, the threshold the observer was constructed with (percent),
the pending `setTimeout` fire times (absolute, ms), and the `delay` prop. -/
structure RevealState where
  visible : Bool
  observing : Bool
  observerThreshold : Option Nat
  timers : List Nat
  delay : Nat
deriving DecidableEq, Repr

/-- State right after `useState(false)`, before the mount effect runs. -/
def initialState (delay : Nat) : RevealState :=
  { visible := false, observing := false, observerThreshold := none,
    timers := [], delay := delay }

/-- The mount effect.  Reduced motion sets `visible` and returns; a null ref
returns; constructing `IntersectionObserver` when the facility is unavailable
throws (there is no try/catch, so the error escapes — we return it as
`Except.error`, carrying the state at the moment of the throw); otherwise the
observer (threshold 0.2, i.e. 20 percent) observes the container. -/
def mount (env : Env) (delay : Nat) : Except (String × RevealState) RevealState :=
  let s0 := initialState delay
  if prefersReduced env then
    .ok { s0 with visible := true }
  else if env.elPresent = false then
    .ok s0
  else if env.observerAvailable = false then
    .error ("IntersectionObserver is not defined", s0)
  else
    .ok { s0 with observing := true, observerThreshold := some 20 }

/-- The state an instance is left in by the mount effect, whether or not the
effect threw (a throw does not roll back `useState`). -/
def stateAfterMount : Except (String × RevealState) RevealState → RevealState
  | .ok s => s
  | .error (_, s) => s

/-- The state after mounting in environment `env`. -/
def mountState (env : Env) (delay : Nat) : RevealState :=
  stateAfterMount (mount env delay)

/-- One iteration of the callback's `entries.forEach`: an intersecting entry
schedules `setVisible(true)` after `delay` and disconnects the observer;
the ratio is never consulted.  `disconnect` only clears `observing` — it does
not stop the enclosing `forEach`. -/
def handleEntry (now : Nat) (s : RevealState) (e : Entry) : RevealState :=
  if e.isIntersecting then
    { s with timers := s.timers ++ [now + s.delay], observing := false }
  else s

/-- The observer callback body: `entries.forEach(...)`. -/
def observerCallback (now : Nat) (s : RevealState) (entries : List Entry) : RevealState :=
  entries.foldl (handleEntry now) s

/-- Delivery of a callback invocation by the environment: the callback runs
only while the observation is registered (after `disconnect` the environment
invokes nothing). -/
def deliver (now : Nat) (entries : List Entry) (s : RevealState) : RevealState :=
  if s.observing then observerCallback now s entries else s

/-- Advance wall time to `t`: every pending timer due at or before `t` fires,
and each firing runs `setVisible(true)`. -/
def advanceTo (t : Nat) (s : RevealState) : RevealState :=
  { s with visible := s.visible || s.timers.any (fun ft => decide (ft ≤ t)),
           timers := s.timers.filter (fun ft => decide (t < ft)) }

/-- External events an instance can receive after mounting. -/
inductive Act where
  /-- the environment invokes the observer callback with a batch of entries. -/
  | deliverA (entries : List Entry)
  /-- the component unmounts; the effect cleanup runs `obs.disconnect()`. -/
  | unmountA
deriving DecidableEq, Repr

/-- Apply one time-stamped event: time first advances to the event's time
(due timers fire), then the event itself is processed. -/
def applyTimed (s : RevealState) (ev : Nat × Act) : RevealState :=
  match ev with
  | (t, Act.deliverA es) => deliver t es (advanceTo t s)
  | (t, Act.unmountA) => { advanceTo t s with observing := false }

/-- Run a time-stamped event trace from a state. -/
def runTimed (s : RevealState) (evs : List (Nat × Act)) : RevealState :=
  evs.foldl applyTimed s

/-- Modelled from the spec: the spec's qualifying condition for an entry —
"its element is currently intersecting at/above the threshold" (20 percent).
The source's own condition is `e.isIntersecting` alone; this definition
exists to compare the two. -/
def specQualifies (e : Entry) : Bool :=
  e.isIntersecting && decide (20 ≤ e.intersectionRatio)

/-- A standard environment: `matchMedia` present, reduced motion off,
container ref present, `IntersectionObserver` available. -/
def okEnv : Env :=
  { matchMediaAvailable := true, reducedMotionMatches := false,
    elPresent := true, observerAvailable := true }

-- Basic preservation lemmas ------------------------------------------------

theorem handleEntry_visible (now : Nat) (s : RevealState) (e : Entry) :
    (handleEntry now s e).visible = s.visible := by
  unfold handleEntry; split <;> rfl

theorem handleEntry_delay (now : Nat) (s : RevealState) (e : Entry) :
    (handleEntry now s e).delay = s.delay := by
  unfold handleEntry; split <;> rfl

theorem handleEntry_observing (now : Nat) (s : RevealState) (e : Entry) :
    (handleEntry now s e).observing = (s.observing && !e.isIntersecting) := by
  unfold handleEntry
  cases h : e.isIntersecting <;> simp [h]

theorem handleEntry_timers_len (now : Nat) (s : RevealState) (e : Entry) :
    (handleEntry now s e).timers.length =
      s.timers.length + (if e.isIntersecting then 1 else 0) := by
  unfold handleEntry
  cases h : e.isIntersecting <;> simp [h]

theorem observerCallback_visible (now : Nat) (entries : List Entry) (s : RevealState) :
    (observerCallback now s entries).visible = s.visible := by
  induction entries generalizing s with
  | nil => rfl
  | cons e es ih =>
      simp only [observerCallback, List.foldl_cons]
      simp only [observerCallback] at ih
      rw [ih, handleEntry_visible]

theorem observerCallback_observing (now : Nat) (entries : List Entry) (s : RevealState) :
    (observerCallback now s entries).observing =
      (s.observing && !(entries.any (fun e => e.isIntersecting))) := by
  induction entries generalizing s with
  | nil => simp [observerCallback]
  | cons e es ih =>
      simp only [observerCallback, List.foldl_cons]
      simp only [observerCallback] at ih
      rw [ih, handleEntry_observing, List.any_cons]
      cases s.observing <;> cases h : e.isIntersecting <;> simp

theorem observerCallback_timers_len (now : Nat) (entries : List Entry) (s : RevealState) :
    (observerCallback now s entries).timers.length =
      s.timers.length + entries.countP (fun e => e.isIntersecting) := by
  induction entries generalizing s with
  | nil => simp [observerCallback]
  | cons e es ih =>
      simp only [observerCallback, List.foldl_cons]
      simp only [observerCallback] at ih
      rw [ih, handleEntry_timers_len, List.countP_cons]
      cases h : e.isIntersecting
      all_goals simp [h]
      all_goals omega

theorem deliver_visible (now : Nat) (entries : List Entry) (s : RevealState) :
    (deliver now entries s).visible = s.visible := by
  unfold deliver
  split
  · exact observerCallback_visible now entries s
  · rfl

theorem deliver_observing (now : Nat) (entries : List Entry) (s : RevealState) :
    (deliver now entries s).observing =
      (s.observing && !(entries.any (fun e => e.isIntersecting))) := by
  unfold deliver
  split
  · exact observerCallback_observing now entries s
  · rename_i h
    simp only [Bool.not_eq_true] at h
    simp [h]

theorem advanceTo_observing (t : Nat) (s : RevealState) :
    (advanceTo t s).observing = s.observing := rfl

theorem advanceTo_visible_mono (t : Nat) (s : RevealState) (h : s.visible = true) :
    (advanceTo t s).visible = true := by
  simp [advanceTo, h]

theorem applyTimed_visible_mono (s : RevealState) (ev : Nat × Act) (h : s.visible = true) :
    (applyTimed s ev).visible = true := by
  match ev with
  | (t, Act.deliverA es) =>
      rw [applyTimed, deliver_visible]
      exact advanceTo_visible_mono t s h
  | (t, Act.unmountA) =>
      show (advanceTo t s).visible = true
      exact advanceTo_visible_mono t s h

theorem applyTimed_observing_mono (s : RevealState) (ev : Nat × Act)
    (h : (applyTimed s ev).observing = true) : s.observing = true := by
  match ev with
  | (t, Act.deliverA es) =>
      rw [applyTimed, deliver_observing, advanceTo_observing] at h
      exact (Bool.and_eq_true _ _ |>.mp h).1
  | (t, Act.unmountA) =>
      exact absurd h (by simp [applyTimed])

theorem runTimed_visible_mono (s : RevealState) (evs : List (Nat × Act))
    (h : s.visible = true) : (runTimed s evs).visible = true := by
  induction evs generalizing s with
  | nil => exact h
  | cons ev evs ih =>
      simp only [runTimed, List.foldl_cons]
      simp only [runTimed] at ih
      exact ih _ (applyTimed_visible_mono s ev h)

theorem runTimed_observing_mono (s : RevealState) (evs : List (Nat × Act))
    (h : (runTimed s evs).observing = true) : s.observing = true := by
  induction evs generalizing s with
  | nil => exact h
  | cons ev evs ih =>
      simp only [runTimed, List.foldl_cons] at h
      simp only [runTimed] at ih
      exact applyTimed_observing_mono s ev (ih _ h)

/-- A "dead" instance (not visible, not observing, no pending timers) stays
dead under every event. -/
theorem applyTimed_dead (s : RevealState) (ev : Nat × Act)
    (h1 : s.visible = false) (h2 : s.observing = false) (h3 : s.timers = []) :
    (applyTimed s ev).visible = false ∧ (applyTimed s ev).observing = false ∧
      (applyTimed s ev).timers = [] := by
  match ev with
  | (t, Act.deliverA es) =>
      rw [applyTimed]
      have hadv : advanceTo t s = { s with visible := s.visible } := by
        simp [advanceTo, h1, h3]
      rw [hadv]
      simp only [deliver, h2]
      simp [h1, h2, h3]
  | (t, Act.unmountA) =>
      rw [applyTimed]
      simp [advanceTo, h1, h3]

theorem runTimed_dead (s : RevealState) (evs : List (Nat × Act))
    (h1 : s.visible = false) (h2 : s.observing = false) (h3 : s.timers = []) :
    (runTimed s evs).visible = false ∧ (runTimed s evs).observing = false ∧
      (runTimed s evs).timers = [] := by
  induction evs generalizing s with
  | nil => exact ⟨h1, h2, h3⟩
  | cons ev evs ih =>
      simp only [runTimed, List.foldl_cons]
      simp only [runTimed] at ih
      obtain ⟨d1, d2, d3⟩ := applyTimed_dead s ev h1 h2 h3
      exact ih _ d1 d2 d3

-- Claim C1 ------------------------------------------------------------------

/-- C1 (as stated) is false at this input: a single callback invocation
carrying two qualifying entries schedules two delay timers, because
`obs.disconnect()` does not stop the `entries.forEach` over the batch that
was already delivered. -/
theorem c1_counterexample :
    (deliver 0 [⟨true, 25⟩, ⟨true, 25⟩] (mountState okEnv 80)).timers.length = 2 := by
  decide

/-- C1 amended: the observation is released synchronously at the first
qualifying entry, so a delivery to a released instance schedules nothing
(hence no later callback invocation schedules a timer); but within a single
invocation every qualifying entry schedules one timer, so one delivery
schedules exactly as many timers as the batch has `isIntersecting` entries. -/
theorem c1_release_and_batch_timers :
    (∀ (now : Nat) (es : List Entry) (s : RevealState),
        s.observing = false → deliver now es s = s)
    ∧ (∀ (now : Nat) (es : List Entry) (s : RevealState),
        (deliver now es s).observing =
          (s.observing && !(es.any (fun e => e.isIntersecting))))
    ∧ (∀ (now : Nat) (es : List Entry) (s : RevealState),
        s.observing = true →
          (deliver now es s).timers.length =
            s.timers.length + es.countP (fun e => e.isIntersecting)) := by
  refine ⟨?_, deliver_observing, ?_⟩
  · intro now es s h
    simp [deliver, h]
  · intro now es s h
    simp only [deliver, h, if_true]
    exact observerCallback_timers_len now es s

theorem c1_release_and_batch_timers_witness :
    deliver 5 [⟨true, 30⟩] { initialState 0 with observing := false } =
      { initialState 0 with observing := false }
    ∧ (deliver 0 [⟨true, 30⟩] (mountState okEnv 80)).timers.length = 1 :=
  ⟨c1_release_and_batch_timers.1 5 [⟨true, 30⟩] _ rfl,
   (c1_release_and_batch_timers.2.2 0 [⟨true, 30⟩] (mountState okEnv 80) rfl).trans
     (by decide)⟩

-- Claim C2 ------------------------------------------------------------------

/-- C2: `visible` is a one-way latch — once `true` it stays `true` under
every timed event and every event trace (so there is no `true → false`
transition and at most one `false → true` transition), and `observing` is
never re-armed (it never goes from `false` back to `true`). -/
theorem c2_visible_one_way_latch :
    (∀ (s : RevealState) (ev : Nat × Act),
        s.visible = true → (applyTimed s ev).visible = true)
    ∧ (∀ (s : RevealState) (ev : Nat × Act),
        (applyTimed s ev).observing = true → s.observing = true)
    ∧ (∀ (s : RevealState) (evs : List (Nat × Act)),
        s.visible = true → (runTimed s evs).visible = true) :=
  ⟨applyTimed_visible_mono, applyTimed_observing_mono, runTimed_visible_mono⟩

theorem c2_visible_one_way_latch_witness :
    (applyTimed ⟨true, false, none, [], 0⟩ (5, Act.unmountA)).visible = true
    ∧ (⟨false, true, some 20, [], 0⟩ : RevealState).observing = true
    ∧ (runTimed ⟨true, false, none, [], 0⟩ [(3, Act.deliverA [⟨true, 50⟩])]).visible = true :=
  ⟨c2_visible_one_way_latch.1 ⟨true, false, none, [], 0⟩ (5, Act.unmountA) rfl,
   c2_visible_one_way_latch.2.1 ⟨false, true, some 20, [], 0⟩ (0, Act.deliverA [])
     (by decide),
   c2_visible_one_way_latch.2.2 ⟨true, false, none, [], 0⟩
     [(3, Act.deliverA [⟨true, 50⟩])] rfl⟩

-- Claim C3 ------------------------------------------------------------------

/-- C3: with the reduced-motion preference active, the mount effect returns
a state with `visible = true`, no observer configuration, and no observation
is registered at mount or at any later point of any event trace. -/
theorem c3_reduced_motion_immediate :
    ∀ (env : Env) (delay : Nat), prefersReduced env = true →
      mount env delay = .ok { initialState delay with visible := true }
      ∧ (mountState env delay).observerThreshold = none
      ∧ ∀ evs : List (Nat × Act),
          (runTimed (mountState env delay) evs).observing = false := by
  intro env delay h
  have hm : mount env delay = .ok { initialState delay with visible := true } := by
    unfold mount
    simp [h]
  have hobs : (mountState env delay).observing = false := by
    rw [mountState, hm]
    rfl
  refine ⟨hm, ?_, ?_⟩
  · rw [mountState, hm]
    rfl
  · intro evs
    cases hrun : (runTimed (mountState env delay) evs).observing
    · rfl
    · rw [runTimed_observing_mono _ _ hrun] at hobs
      exact absurd hobs (by simp)

theorem c3_reduced_motion_immediate_witness :
    mount ⟨true, true, true, true⟩ 7 = .ok { initialState 7 with visible := true }
    ∧ (runTimed (mountState ⟨true, true, true, true⟩ 7)
        [(0, Act.deliverA [⟨true, 100⟩])]).observing = false :=
  ⟨(c3_reduced_motion_immediate ⟨true, true, true, true⟩ 7 rfl).1,
   (c3_reduced_motion_immediate ⟨true, true, true, true⟩ 7 rfl).2.2 _⟩

-- Claim C4 ------------------------------------------------------------------

/-- C4: from a standard mount, delivering one qualifying entry (intersecting
at or above the 20 percent threshold) at time `t₀` makes `visible` exactly
the predicate "`t₀ + delay` has elapsed"; and once `visible` is `true` it
stays `true` after every further event trace and time advance (in particular
after any later intersection entries, including leave events). -/
theorem c4_delay_then_latch :
    (∀ (delay t₀ t : Nat) (e : Entry), specQualifies e = true →
        (advanceTo t (applyTimed (mountState okEnv delay)
            (t₀, Act.deliverA [e]))).visible = decide (t₀ + delay ≤ t))
    ∧ (∀ (s : RevealState) (evs : List (Nat × Act)) (t : Nat),
        s.visible = true → (advanceTo t (runTimed s evs)).visible = true) := by
  constructor
  · intro delay t₀ t e hq
    have hi : e.isIntersecting = true := ((Bool.and_eq_true _ _).mp hq).1
    simp [mountState, mount, stateAfterMount, initialState, okEnv, prefersReduced,
          applyTimed, advanceTo, deliver, observerCallback, handleEntry, hi]
  · intro s evs t h
    exact advanceTo_visible_mono t _ (runTimed_visible_mono s evs h)

theorem c4_delay_then_latch_witness :
    (advanceTo 79 (applyTimed (mountState okEnv 80)
        (0, Act.deliverA [⟨true, 25⟩]))).visible = false
    ∧ (advanceTo 80 (applyTimed (mountState okEnv 80)
        (0, Act.deliverA [⟨true, 25⟩]))).visible = true
    ∧ (advanceTo 500 (runTimed { initialState 0 with visible := true }
        [(100, Act.deliverA [⟨false, 0⟩])])).visible = true := by
  refine ⟨?_, ?_, c4_delay_then_latch.2 _ _ 500 rfl⟩
  · have h := c4_delay_then_latch.1 80 0 79 ⟨true, 25⟩ rfl
    simpa using h
  · have h := c4_delay_then_latch.1 80 0 80 ⟨true, 25⟩ rfl
    simpa using h

-- Claim C5 ------------------------------------------------------------------

/-- C5 (as stated) is false at this input: with reduced motion off, the ref
present and the observation facility unavailable, the mount effect has no
try/catch, so the construction error escapes to the caller and `visible`
stays `false` — the instance does not degrade to the reduced-motion
fallback. -/
theorem c5_counterexample :
    mount ⟨true, false, true, false⟩ 0 =
      .error ("IntersectionObserver is not defined", initialState 0)
    ∧ (mountState ⟨true, false, true, false⟩ 0).visible = false :=
  ⟨rfl, rfl⟩

/-- C5 amended: whenever reduced motion is off, the ref is present and the
observation facility is unavailable, mounting propagates the construction
error to its caller and leaves the instance hidden. -/
theorem c5_error_escapes :
    ∀ (env : Env) (delay : Nat),
      prefersReduced env = false → env.elPresent = true →
        env.observerAvailable = false →
          mount env delay =
            .error ("IntersectionObserver is not defined", initialState delay)
          ∧ (mountState env delay).visible = false := by
  intro env delay h1 h2 h3
  have hm : mount env delay =
      .error ("IntersectionObserver is not defined", initialState delay) := by
    unfold mount
    simp [h1, h2, h3]
  refine ⟨hm, ?_⟩
  rw [mountState, hm]
  rfl

theorem c5_error_escapes_witness :
    mount ⟨false, false, true, false⟩ 10 =
      .error ("IntersectionObserver is not defined", initialState 10) :=
  (c5_error_escapes ⟨false, false, true, false⟩ 10 rfl rfl rfl).1

-- Claim C6 ------------------------------------------------------------------

/-- C6: unmounting an instance that has no pending timer (no qualifying
intersection has fired) releases the observation handle and modifies nothing
else: `visible`, the timer list, the observer threshold and the delay are all
unchanged. -/
theorem c6_unmount_releases_only :
    ∀ (s : RevealState) (t : Nat), s.timers = [] →
      (applyTimed s (t, Act.unmountA)).observing = false
      ∧ (applyTimed s (t, Act.unmountA)).visible = s.visible
      ∧ (applyTimed s (t, Act.unmountA)).timers = s.timers
      ∧ (applyTimed s (t, Act.unmountA)).observerThreshold = s.observerThreshold
      ∧ (applyTimed s (t, Act.unmountA)).delay = s.delay := by
  intro s t h
  simp [applyTimed, advanceTo, h]

theorem c6_unmount_releases_only_witness :
    (applyTimed (mountState okEnv 0) (9, Act.unmountA)).observing = false
    ∧ (applyTimed (mountState okEnv 0) (9, Act.unmountA)).visible =
        (mountState okEnv 0).visible :=
  ⟨(c6_unmount_releases_only (mountState okEnv 0) 9 rfl).1,
   (c6_unmount_releases_only (mountState okEnv 0) 9 rfl).2.1⟩

-- Claim C7 ------------------------------------------------------------------

/-- C7 (as stated) is false at this input: an entry intersecting at 5 percent
is below the 20 percent threshold, so per the spec it must not qualify, yet
the callback schedules the transition for it (one timer, observation
released) — the code tests only `isIntersecting` and never compares the
entry's ratio to the threshold. -/
theorem c7_counterexample :
    specQualifies ⟨true, 5⟩ = false
    ∧ (deliver 0 [⟨true, 5⟩] (mountState okEnv 0)).timers.length = 1
    ∧ (deliver 0 [⟨true, 5⟩] (mountState okEnv 0)).observing = false := by
  refine ⟨rfl, ?_, ?_⟩ <;> decide

/-- C7 amended: without reduced motion the observation is acquired with the
20 percent threshold in its configuration, but a delivered entry triggers the
transition (appends the delay timer and releases the observation) exactly
when its `isIntersecting` flag is set, whatever its reported ratio. -/
theorem c7_trigger_is_intersecting_flag :
    (∀ (env : Env) (delay : Nat),
        prefersReduced env = false → env.elPresent = true →
          env.observerAvailable = true →
            (mountState env delay).observerThreshold = some 20
            ∧ (mountState env delay).observing = true)
    ∧ (∀ (now : Nat) (e : Entry) (s : RevealState), s.observing = true →
        ((deliver now [e] s).timers = s.timers ++ [now + s.delay]
            ∧ (deliver now [e] s).observing = false
          ↔ e.isIntersecting = true)) := by
  constructor
  · intro env delay h1 h2 h3
    have hm : mount env delay =
        .ok { initialState delay with observing := true, observerThreshold := some 20 } := by
      unfold mount
      simp [h1, h2, h3]
    rw [mountState, hm]
    exact ⟨rfl, rfl⟩
  · intro now e s hs
    cases hi : e.isIntersecting
    · simp [deliver, hs, observerCallback, handleEntry, hi]
    · simp [deliver, hs, observerCallback, handleEntry, hi]

theorem c7_trigger_is_intersecting_flag_witness :
    (mountState okEnv 3).observerThreshold = some 20
    ∧ (deliver 2 [⟨true, 50⟩] (mountState okEnv 3)).timers =
        (mountState okEnv 3).timers ++ [2 + (mountState okEnv 3).delay] :=
  ⟨(c7_trigger_is_intersecting_flag.1 okEnv 3 rfl rfl rfl).1,
   ((c7_trigger_is_intersecting_flag.2 2 ⟨true, 50⟩ (mountState okEnv 3) rfl).mpr
      rfl).1⟩

-- Claim C8 ------------------------------------------------------------------

/-- C8: without the reduced-motion preference, `visible` is `false`
immediately after the mount effect on every path (observer registered, null
ref early return, or constructor throw). -/
theorem c8_not_reduced_starts_hidden :
    ∀ (env : Env) (delay : Nat), prefersReduced env = false →
      (mountState env delay).visible = false := by
  intro env delay h
  obtain ⟨mm, rm, el, oa⟩ := env
  cases el <;> cases oa <;>
    simp [mountState, mount, stateAfterMount, initialState, h]

theorem c8_not_reduced_starts_hidden_witness :
    (mountState okEnv 80).visible = false :=
  c8_not_reduced_starts_hidden okEnv 80 rfl

-- Claim C9 ------------------------------------------------------------------

theorem cn_three (a b c : String) (ha : a ≠ "") (hb : b ≠ "") (hc : c ≠ "") :
    cn [some a, some b, some c] = a ++ " " ++ b ++ " " ++ c := by
  simp [cn, ha, hb, hc, String.intercalate, String.intercalate.go]

/-- C9: the rendered container class is a function of `visible` alone: with
the default `className` the two states render exactly the static transition
classes plus the hidden/offset classes (`visible = false`) or the resting
classes (`visible = true`), and for every `className` the hidden and visible
renderings are distinct strings. -/
theorem c9_render_reflects_visible :
    revealClass false "" =
      "transform transition-all duration-500 ease-out will-change-[opacity,transform] opacity-0 translate-y-3"
    ∧ revealClass true "" =
      "transform transition-all duration-500 ease-out will-change-[opacity,transform] opacity-100 translate-y-0"
    ∧ ∀ className : String,
        revealClass false className ≠ revealClass true className := by
  refine ⟨by decide, by decide, ?_⟩
  intro c
  by_cases hc : c = ""
  · subst hc
    decide
  · intro heq
    have e1 : revealClass false c =
        "transform transition-all duration-500 ease-out will-change-[opacity,transform]"
          ++ " " ++ "opacity-0 translate-y-3" ++ " " ++ c :=
      cn_three _ _ _ (by decide) (by decide) hc
    have e2 : revealClass true c =
        "transform transition-all duration-500 ease-out will-change-[opacity,transform]"
          ++ " " ++ "opacity-100 translate-y-0" ++ " " ++ c :=
      cn_three _ _ _ (by decide) (by decide) hc
    rw [e1, e2] at heq
    have hlen := congrArg String.length heq
    simp only [String.length_append] at hlen
    have l1 : ("opacity-0 translate-y-3" : String).length = 23 := rfl
    have l2 : ("opacity-100 translate-y-0" : String).length = 25 := rfl
    rw [l1, l2] at hlen
    omega

-- Claim C10 -----------------------------------------------------------------

/-- C10: mounting without reduced motion while the container ref is null
returns early: the mount effect succeeds leaving the pristine hidden state,
and on every subsequent event trace the instance stays invisible, never
observes, and never has a timer pending. -/
theorem c10_null_ref_stays_hidden :
    ∀ (env : Env) (delay : Nat), prefersReduced env = false →
      env.elPresent = false →
        mount env delay = .ok (initialState delay)
        ∧ ∀ (evs : List (Nat × Act)) (t : Nat),
            (advanceTo t (runTimed (initialState delay) evs)).visible = false
            ∧ (runTimed (initialState delay) evs).observing = false
            ∧ (runTimed (initialState delay) evs).timers = [] := by
  intro env delay h hel
  constructor
  · unfold mount
    simp [h, hel]
  · intro evs t
    obtain ⟨d1, d2, d3⟩ := runTimed_dead (initialState delay) evs rfl rfl rfl
    refine ⟨?_, d2, d3⟩
    simp [advanceTo, d1, d3]

theorem c10_null_ref_stays_hidden_witness :
    mount ⟨true, false, false, true⟩ 40 = .ok (initialState 40)
    ∧ (advanceTo 1000 (runTimed (initialState 40)
        [(0, Act.deliverA [⟨true, 90⟩])])).visible = false :=
  ⟨(c10_null_ref_stays_hidden ⟨true, false, false, true⟩ 40 rfl rfl).1,
   ((c10_null_ref_stays_hidden ⟨true, false, false, true⟩ 40 rfl rfl).2
      [(0, Act.deliverA [⟨true, 90⟩])] 1000).1⟩

end Portfolio
